import Mathlib

/-!
Shallow embedding of the PawGuardian application (src/app.py): the
observation-JSON cleanup and parse, the four action primitives, the
function-call dispatcher of the Decision stage, and the per-run control
flow of the run-button handler.  The hosted model calls, the Twilio
client and the Streamlit widgets are opaque external services, modelled
as oracles (`Except`-valued parameters).
-/

namespace PawGuardian

/-- Python/JSON values, as produced by `json.loads`.  JSON numbers are
modelled as integers; float literals and `\uXXXX` string escapes are not
modelled. -/
inductive JValue where
  | null
  | bool (b : Bool)
  | num (n : Int)
  | str (s : String)
  | arr (elems : List JValue)
  | obj (fields : List (String × JValue))

/-- Whitespace skipped by the JSON parser (space, tab, newline, carriage
return, as in Python's `json` module). -/
def isJsonWs (c : Char) : Bool :=
  c = ' ' || c = '\t' || c = '\n' || c = '\r'

def skipWs : List Char → List Char
  | [] => []
  | c :: cs => if isJsonWs c then skipWs cs else c :: cs

/-- Body of a JSON string literal up to the closing quote, decoding the
simple escapes. -/
def parseStrChars : Nat → List Char → Except String (List Char × List Char)
  | 0, _ => .error "Unterminated string"
  | _ + 1, [] => .error "Unterminated string"
  | f + 1, c :: cs =>
    if c = '\"' then .ok ([], cs)
    else if c = '\\' then
      match cs with
      | [] => .error "Unterminated string"
      | e :: cs2 =>
        let ec? : Option Char :=
          if e = '\"' then some '\"'
          else if e = '\\' then some '\\'
          else if e = '/' then some '/'
          else if e = 'n' then some '\n'
          else if e = 't' then some '\t'
          else if e = 'r' then some '\r'
          else if e = 'b' then some (Char.ofNat 8)
          else if e = 'f' then some (Char.ofNat 12)
          else none
        match ec? with
        | some ec => (parseStrChars f cs2).map (fun p => (ec :: p.1, p.2))
        | none => .error "Invalid escape"
    else (parseStrChars f cs).map (fun p => (c :: p.1, p.2))

def digitsOf (l : List Char) : List Char × List Char :=
  (l.takeWhile Char.isDigit, l.dropWhile Char.isDigit)

def digitsVal (ds : List Char) : Nat :=
  ds.foldl (fun a c => a * 10 + (c.toNat - 48)) 0

mutual

/-- One JSON value and the remaining input (fuelled recursive descent,
modelling `json.loads`). -/
def parseVal : Nat → List Char → Except String (JValue × List Char)
  | 0, _ => .error "Nesting exceeded"
  | f + 1, l =>
    match skipWs l with
    | [] => .error "Expecting value"
    | '{' :: rest => (parseObjTail f rest true).map (fun p => (.obj p.1, p.2))
    | '[' :: rest => (parseArrTail f rest true).map (fun p => (.arr p.1, p.2))
    | '\"' :: rest =>
      (parseStrChars (rest.length + 1) rest).map
        (fun p => (.str (String.mk p.1), p.2))
    | 't' :: 'r' :: 'u' :: 'e' :: rest => .ok (.bool true, rest)
    | 'f' :: 'a' :: 'l' :: 's' :: 'e' :: rest => .ok (.bool false, rest)
    | 'n' :: 'u' :: 'l' :: 'l' :: rest => .ok (.null, rest)
    | '-' :: rest =>
      match digitsOf rest with
      | ([], _) => .error "Expecting value"
      | (ds, r) => .ok (.num (-(digitsVal ds : Int)), r)
    | c :: rest =>
      if c.isDigit then
        match digitsOf (c :: rest) with
        | (ds, r) => .ok (.num (digitsVal ds : Int), r)
      else .error "Expecting value"

/-- Member list of a JSON object after the opening brace; `first` is true
until the first pair is read, so that only `{}` may close immediately. -/
def parseObjTail : Nat → List Char → Bool →
    Except String (List (String × JValue) × List Char)
  | 0, _, _ => .error "Nesting exceeded"
  | f + 1, l, first =>
    match skipWs l with
    | '}' :: rest =>
      if first then .ok ([], rest)
      else .error "Expecting property name enclosed in double quotes"
    | '\"' :: rest =>
      match parseStrChars (rest.length + 1) rest with
      | .error e => .error e
      | .ok (kcs, r1) =>
        match skipWs r1 with
        | ':' :: r3 =>
          match parseVal f r3 with
          | .error e => .error e
          | .ok (v, r4) =>
            match skipWs r4 with
            | ',' :: r6 =>
              (parseObjTail f r6 false).map
                (fun p => ((String.mk kcs, v) :: p.1, p.2))
            | '}' :: r6 => .ok ([(String.mk kcs, v)], r6)
            | _ => .error "Expecting delimiter"
        | _ => .error "Expecting colon delimiter"
    | _ => .error "Expecting property name enclosed in double quotes"

/-- Element list of a JSON array after the opening bracket. -/
def parseArrTail : Nat → List Char → Bool →
    Except String (List JValue × List Char)
  | 0, _, _ => .error "Nesting exceeded"
  | f + 1, l, first =>
    match skipWs l with
    | ']' :: rest =>
      if first then .ok ([], rest)
      else .error "Expecting value"
    | l1 =>
      match parseVal f l1 with
      | .error e => .error e
      | .ok (v, r1) =>
        match skipWs r1 with
        | ',' :: r2 => (parseArrTail f r2 false).map (fun p => (v :: p.1, p.2))
        | ']' :: r2 => .ok ([v], r2)
        | _ => .error "Expecting delimiter"

end

/-- `json.loads`: parse a complete JSON document, rejecting trailing
garbage. -/
def json_loads (s : String) : Except String JValue :=
  match parseVal (s.data.length + 2) s.data with
  | .error e => .error e
  | .ok (v, rest) => if skipWs rest = [] then .ok v else .error "Extra data"

/-- Python's `\s` class: space, tab, newline, carriage return, form feed,
vertical tab. -/
def isPyWs (c : Char) : Bool :=
  c = ' ' || c = '\t' || c = '\n' || c = '\r' ||
  c = Char.ofNat 11 || c = Char.ofNat 12

/-- If the list starts with a ```` ```json ````-fence marker (case
insensitive) followed by whitespace, the remainder after the match. -/
def fenceRest : List Char → Option (List Char)
  | '`' :: '`' :: '`' :: c1 :: c2 :: c3 :: c4 :: rest =>
    if c1.toLower = 'j' && c2.toLower = 's' && c3.toLower = 'o' &&
        c4.toLower = 'n' then
      some (rest.dropWhile isPyWs)
    else none
  | _ => none

/-- `re.sub(r"` ```json\s* `", "", text, flags=IGNORECASE)`: delete every
occurrence of the opening fence marker and the whitespace after it. -/
def stripJsonFencesAux : Nat → List Char → List Char
  | 0, l => l
  | f + 1, l =>
    match fenceRest l with
    | some rest => stripJsonFencesAux f rest
    | none =>
      match l with
      | [] => []
      | c :: cs => c :: stripJsonFencesAux f cs

def stripJsonFences (l : List Char) : List Char :=
  stripJsonFencesAux l.length l

/-- Greedy `\s*$` after a closing fence (MULTILINE): consume as much
whitespace as possible subject to ending at a line end or at the end of
the string; `none` when no such split exists. -/
def greedyDollar : List Char → Option (List Char)
  | [] => some []
  | c :: cs =>
    if isPyWs c then
      match greedyDollar cs with
      | some r => some r
      | none => if c = '\n' then some (c :: cs) else none
    else if c = '\n' then some (c :: cs)
    else none

/-- `re.sub(r"` ```\s*$ `", "", text, flags=MULTILINE)`: delete closing
fences that stand at the end of a line. -/
def stripClosingAux : Nat → List Char → List Char
  | 0, l => l
  | f + 1, l =>
    match l with
    | '`' :: '`' :: '`' :: rest =>
      match greedyDollar rest with
      | some rem => stripClosingAux f rem
      | none => '`' :: stripClosingAux f ('`' :: '`' :: rest)
    | [] => []
    | c :: cs => c :: stripClosingAux f cs

def stripClosingFences (l : List Char) : List Char :=
  stripClosingAux l.length l

/-- Both regex cleanup passes of `clean_json_text`, in source order. -/
def fenceCleaned (s : String) : List Char :=
  stripClosingFences (stripJsonFences s.data)

/-- Python `str.find`: index of the first occurrence, `-1` when absent. -/
def strFind : List Char → Char → Int
  | [], _ => -1
  | a :: as, c =>
    if a = c then 0
    else
      let r := strFind as c
      if r = -1 then -1 else r + 1

/-- Python `str.rfind`: index of the last occurrence, `-1` when absent. -/
def strRFind (l : List Char) (c : Char) : Int :=
  let r := strFind l.reverse c
  if r = -1 then -1 else (l.length : Int) - 1 - r

/-- `clean_json_text` from src/app.py: `"{}"` for `None`/empty input,
otherwise strip fences then slice from the first `{` through the last
`}` when both exist, else return the stripped text. -/
def clean_json_text (text : Option String) : String :=
  match text with
  | none => "{}"
  | some t =>
    if t.isEmpty then "{}"
    else
      let cs := fenceCleaned t
      let start := strFind cs '{'
      let stop := strRFind cs '}'
      if start ≠ -1 ∧ stop ≠ -1 then
        String.mk ((cs.drop start.toNat).take (stop + 1 - start).toNat)
      else String.mk cs

/-- Index of the first occurrence of a character, if any (spec-side
counterpart of `strFind`). -/
def firstIdx? : List Char → Char → Option Nat
  | [], _ => none
  | a :: as, c =>
    if a = c then some 0 else (firstIdx? as c).map (· + 1)

/-- Index of the last occurrence of a character, if any (spec-side
counterpart of `strRFind`). -/
def lastIdx? (l : List Char) (c : Char) : Option Nat :=
  (firstIdx? l.reverse c).map (fun r => l.length - 1 - r)

/-- The five Twilio-related secrets loaded by `load_secrets`; each is
`none` when the secret could not be loaded. -/
structure TwilioConfig where
  sid : Option String
  token : Option String
  fromPhone : Option String
  smsNumber : Option String
  ownerPhone : Option String
deriving DecidableEq

/-- The external Twilio client, as an oracle: each create call either
succeeds or raises (the exception text).  The first argument is the
message body/TwiML, then the destination and source numbers. -/
structure Provider where
  createMessage : String → Option String → Option String → Except String Unit
  createCall : String → Option String → Option String → Except String Unit

/-- Python truthiness of an optional string, as used by
`not all([TWILIO_SID, TWILIO_TOKEN])`: `None` and `""` are falsy. -/
def optFalsy : Option String → Bool
  | none => true
  | some s => s.isEmpty

/-- `send_sms_alert` from src/app.py. -/
def send_sms_alert (cfg : TwilioConfig) (p : Provider) (message : String) :
    String :=
  if optFalsy cfg.sid || optFalsy cfg.token then
    "エラー: Twilio が設定されていません。"
  else
    match p.createMessage message cfg.smsNumber cfg.ownerPhone with
    | .ok _ => "SMS を送信しました。"
    | .error e => "エラー: SMS 送信に失敗しました - " ++ e

/-- The TwiML payload built by `make_emergency_call`. -/
def call_twiml (message : String) : String :=
  "<Response><Say language=\"ja-JP\" voice=\"alice\">" ++ message ++
    "</Say></Response>"

/-- `make_emergency_call` from src/app.py. -/
def make_emergency_call (cfg : TwilioConfig) (p : Provider)
    (message : String) : String :=
  if optFalsy cfg.sid || optFalsy cfg.token then
    "エラー: Twilio が設定されていません。"
  else
    match p.createCall (call_twiml message) cfg.ownerPhone cfg.fromPhone with
    | .ok _ => "電話を発信しました。"
    | .error e => "エラー: 電話発信に失敗しました - " ++ e

/-- `open_car_windows` from src/app.py (pure simulation). -/
def open_car_windows (level : Int) : String :=
  "窓を " ++ toString level ++ "% 開きます。"

/-- `play_music` from src/app.py (pure simulation). -/
def play_music (track_type : String) : String :=
  "音楽を再生します。" ++ track_type

/-- One of the four Python action functions being invoked, with its
argument. -/
inductive ExecEvent where
  | sms (message : String)
  | call (message : String)
  | windows (level : Int)
  | music (track : String)
deriving DecidableEq

/-- A function call requested by the Decision model. -/
structure FnCall where
  name : String
  args : List (String × JValue)

/-- Argument lookup in a function call's argument bundle. -/
def argGet (args : List (String × JValue)) (k : String) : Option JValue :=
  (args.find? (fun q => q.1 == k)).map Prod.snd

/-- Python `int()` coercion on a JSON value (`int(f_args["level"])`). -/
def pyInt : JValue → Except String Int
  | .num n => .ok n
  | .bool b => .ok (if b then 1 else 0)
  | .str s =>
    match s.toInt? with
    | some n => .ok n
    | none => .error ("ValueError: invalid literal for int: " ++ s)
  | _ => .error "TypeError: int() argument"

/-- Outcome of dispatching one requested call: the `result` string, the
action functions actually invoked, and the exception (if any) raised
during the step after those invocations. -/
structure StepOut where
  result : String
  events : List ExecEvent
  err : Option String
deriving DecidableEq

/-- The body of the dispatch loop (src/app.py lines 423-446) for one
requested call: `result` starts as `"Error"`, the if/elif chain matches
the four declared names, and the Streamlit progress bar raises when
`level / 100.0` falls outside `[0, 1]`.  Non-string `message` and
`track_type` arguments (excluded by the declared tool schema) are not
modelled. -/
def dispatchOne (cfg : TwilioConfig) (p : Provider) (c : FnCall) : StepOut :=
  if c.name = "send_sms_alert" then
    match argGet c.args "message" with
    | some (.str m) => ⟨send_sms_alert cfg p m, [.sms m], none⟩
    | some _ => ⟨"Error", [], some "TypeError: message"⟩
    | none => ⟨"Error", [], some "KeyError: message"⟩
  else if c.name = "make_emergency_call" then
    match argGet c.args "message" with
    | some (.str m) => ⟨make_emergency_call cfg p m, [.call m], none⟩
    | some _ => ⟨"Error", [], some "TypeError: message"⟩
    | none => ⟨"Error", [], some "KeyError: message"⟩
  else if c.name = "open_car_windows" then
    match argGet c.args "level" with
    | none => ⟨"Error", [], some "KeyError: level"⟩
    | some v =>
      match pyInt v with
      | .error e => ⟨"Error", [], some e⟩
      | .ok n =>
        ⟨open_car_windows n, [.windows n],
          if 0 ≤ n ∧ n ≤ 100 then none
          else some "StreamlitAPIException: Progress Value has invalid value"⟩
  else if c.name = "play_music" then
    match argGet c.args "track_type" with
    | some (.str t) => ⟨play_music t, [.music t], none⟩
    | some _ => ⟨"Error", [], some "TypeError: track_type"⟩
    | none => ⟨"Error", [], some "KeyError: track_type"⟩
  else ⟨"Error", [], none⟩

/-- Accumulated outcome of the whole dispatch loop: the
`function_responses` built so far, all action invocations, and the first
uncaught exception (which ends the loop). -/
structure DispatchOut where
  responses : List (String × String)
  events : List ExecEvent
  err : Option String
deriving DecidableEq

/-- The dispatch loop over the Decision model's requested calls; a step
whose exception is set stops the loop (its response is never appended). -/
def runDispatch (cfg : TwilioConfig) (p : Provider) :
    List FnCall → DispatchOut
  | [] => ⟨[], [], none⟩
  | c :: cs =>
    let s := dispatchOne cfg p c
    match s.err with
    | some e => ⟨[], s.events, some e⟩
    | none =>
      let r := runDispatch cfg p cs
      ⟨(c.name, s.result) :: r.responses, s.events ++ r.events, r.err⟩

/-- Python truthiness of `obs_data.get("subject_detected")` (absent key
gives `None`, which is falsy). -/
def pyTruthy : Option JValue → Bool
  | none => false
  | some .null => false
  | some (.bool b) => b
  | some (.num n) => n ≠ 0
  | some (.str s) => ¬s.isEmpty
  | some (.arr l) => ¬l.isEmpty
  | some (.obj l) => ¬l.isEmpty

/-- `dict.get` on a parsed JSON object (with duplicate keys, `json.loads`
keeps the last occurrence). -/
def dictGet (fields : List (String × JValue)) (k : String) : Option JValue :=
  (fields.reverse.find? (fun q => q.1 == k)).map Prod.snd

/-- The first Decision-turn reply: the function calls it requests.  (Its
free text is displayed but does not influence control flow.) -/
structure DecisionResp where
  function_calls : List FnCall

/-- The external behaviour feeding one run: the slider temperature (used
only inside the prompts) and the three model-call oracles — the Observer
reply text (`r1.text`, possibly `None`), the first Decision turn, and the
second Decision turn (`final_res.text`). -/
structure RunInput where
  carTemp : Int
  obsResponse : Except String (Option String)
  decResponse : Except String DecisionResp
  finalResponse : Except String String

/-- Observable outcome of one press of the run button. -/
structure RunResult where
  surfacedError : Option String
  decisionInvoked : Bool
  stoppedNoSubject : Bool
  events : List ExecEvent
  sentResponses : Option (List (String × String))
  finalReport : Option String
deriving DecidableEq

/-- The run-button handler (src/app.py lines 307-458): Observer call,
JSON cleanup/parse, subject gate, Decision call, dispatch loop, feedback
turn.  Exceptions in either `try` block surface as `Observer Error` /
`Agent Error` messages and end the run. -/
def runPipeline (cfg : TwilioConfig) (p : Provider) (inp : RunInput) :
    RunResult :=
  match inp.obsResponse with
  | .error e => ⟨some ("Observer Error: " ++ e), false, false, [], none, none⟩
  | .ok rtext =>
    match json_loads (clean_json_text rtext) with
    | .error e =>
      ⟨some ("Observer Error: " ++ e), false, false, [], none, none⟩
    | .ok v =>
      match v with
      | .obj fields =>
        if pyTruthy (dictGet fields "subject_detected") then
          match inp.decResponse with
          | .error e =>
            ⟨some ("Agent Error: " ++ e), true, false, [], none, none⟩
          | .ok d =>
            match d.function_calls with
            | [] => ⟨none, true, false, [], none, none⟩
            | _ =>
              let out := runDispatch cfg p d.function_calls
              match out.err with
              | some e =>
                ⟨some ("Agent Error: " ++ e), true, false, out.events,
                  none, none⟩
              | none =>
                match inp.finalResponse with
                | .error e =>
                  ⟨some ("Agent Error: " ++ e), true, false, out.events,
                    some out.responses, none⟩
                | .ok t =>
                  ⟨none, true, false, out.events, some out.responses, some t⟩
        else ⟨none, false, true, [], none, none⟩
      | _ =>
        ⟨some "Observer Error: AttributeError", false, false, [], none, none⟩

/-- `is_brachy` from the sidebar form (src/app.py line 257). -/
def is_brachy (pet_breed : String) : String :=
  if pet_breed = "フレンチブルドッグ" ∨ pet_breed = "パグ" then "Yes" else "No"

/-- Prefix test on character lists (for Python's `in` on strings). -/
def chPre : List Char → List Char → Bool
  | [], _ => true
  | _ :: _, [] => false
  | a :: as, b :: bs => a = b && chPre as bs

/-- Python's substring `in` operator. -/
def strIn (needle hay : String) : Bool :=
  go needle.data hay.data
where
  go (n : List Char) : List Char → Bool
    | [] => chPre n []
    | c :: cs => chPre n (c :: cs) || go n cs

/-- The critical note for French bulldogs (src/app.py line 266). -/
def frenchBulldogNote : String :=
  "⚠️ クリティカル: これはブラシェペシック（短頭種）の犬種です。極端に低い熱耐性を持っています。温度閾値を5°C下げてください。"

/-- The critical note for senior dogs (src/app.py lines 268-270). -/
def seniorNote : String :=
  "⚠️ クリティカル: シニア犬。不安反応が低いです。反応が速くなります。"

/-- `breed_note` from the sidebar (src/app.py lines 264-270): set only
when the breed string contains フレンチブルドッグ, or for seniors. -/
def breed_note (pet_breed : String) (pet_age : ℚ) : String :=
  if strIn "フレンチブルドッグ" pet_breed then frenchBulldogNote
  else if strIn "シニア犬" pet_breed || pet_age > 10 then seniorNote
  else ""

/-- `pet_context` (src/app.py line 272); the rendering of the numeric
age is abstracted as an already-formatted string. -/
def pet_context (pet_name pet_breed ageStr : String) (sensitivity : Nat)
    (note : String) : String :=
  "Name: " ++ pet_name ++ ", Breed: " ++ pet_breed ++ ", Age: " ++ ageStr ++
    ", Owner Sensitivity: " ++ toString sensitivity ++ "/10. " ++ note

/-- Test fixture: no secret loaded. -/
def cfgNone : TwilioConfig := ⟨none, none, none, none, none⟩

/-- Test fixture: all five secrets present. -/
def cfgFull : TwilioConfig :=
  ⟨some "AC1", some "tok", some "+81300000001", some "+81300000002",
    some "+81900000003"⟩

/-- Test fixture: account SID and auth token present, all numbers
missing. -/
def cfgPartial : TwilioConfig := ⟨some "AC1", some "tok", none, none, none⟩

/-- Test fixture: a Twilio client whose calls succeed. -/
def provOk : Provider := ⟨fun _ _ _ => .ok (), fun _ _ _ => .ok ()⟩

/-- Test fixture: a Twilio client whose calls raise. -/
def provFail : Provider :=
  ⟨fun _ _ _ => .error "HTTP 400", fun _ _ _ => .error "HTTP 400"⟩

/-- Test fixture: subject detected, two requested actions, final report
delivered. -/
def inpTwoCalls : RunInput :=
  ⟨24, .ok (some "\x7b\"subject_detected\": true, \"anxiety_level\": \"Low\"\x7d"),
    .ok ⟨[⟨"send_sms_alert", [("message", .str "不安の兆候があります")]⟩,
      ⟨"play_music", [("track_type", .str "relax")]⟩]⟩,
    .ok "最終レポート"⟩

end PawGuardian

namespace PawGuardian

theorem strFind_nonneg (l : List Char) (c : Char) :
    strFind l c = -1 ∨ 0 ≤ strFind l c := by
  induction l with
  | nil => left; rfl
  | cons a as ih =>
    by_cases h : a = c
    · right; simp [strFind, h]
    · rcases ih with h1 | h1 <;> simp only [strFind, if_neg h]
      · left; simp [h1]
      · rcases eq_or_ne (strFind as c) (-1) with h2 | h2
        · left; simp [h2]
        · right; simp only [if_neg h2]; omega

theorem strFind_neg_iff (l : List Char) (c : Char) :
    strFind l c = -1 ↔ c ∉ l := by
  induction l with
  | nil => simp [strFind]
  | cons a as ih =>
    by_cases h : a = c
    · subst h; simp [strFind]
    · rcases eq_or_ne (strFind as c) (-1) with h2 | h2
      · simp only [strFind, if_neg h, if_pos h2, List.mem_cons]
        have h3 := ih.mp h2
        refine ⟨fun _ hcon => ?_, fun _ => trivial⟩
        rcases hcon with hca | hm
        · exact h hca.symm
        · exact h3 hm
      · simp only [strFind, if_neg h, if_neg h2, List.mem_cons]
        have hnn : 0 ≤ strFind as c := (strFind_nonneg as c).resolve_left h2
        constructor
        · intro hcon; omega
        · intro hcon
          exact absurd (ih.mpr (fun hm => hcon (Or.inr hm))) h2

theorem strFind_of_firstIdx (l : List Char) (c : Char) (i : Nat)
    (h : firstIdx? l c = some i) : strFind l c = (i : Int) := by
  induction l generalizing i with
  | nil => simp [firstIdx?] at h
  | cons a as ih =>
    by_cases ha : a = c
    · simp only [firstIdx?, if_pos ha, Option.some.injEq] at h
      simp only [strFind, if_pos ha]
      omega
    · simp only [firstIdx?, if_neg ha, Option.map_eq_some'] at h
      obtain ⟨j, hj, hij⟩ := h
      have hs := ih j hj
      simp only [strFind, if_neg ha, hs,
        if_neg (show ¬((j : Int) = -1) by omega)]
      omega

theorem firstIdx_none_iff (l : List Char) (c : Char) :
    firstIdx? l c = none ↔ c ∉ l := by
  induction l with
  | nil => simp [firstIdx?]
  | cons a as ih =>
    by_cases ha : a = c
    · subst ha; simp [firstIdx?]
    · simp only [firstIdx?, if_neg ha, Option.map_eq_none', ih,
        List.mem_cons]
      constructor
      · intro hn hcon
        rcases hcon with hca | hm
        · exact ha hca.symm
        · exact hn hm
      · intro hn hm
        exact hn (Or.inr hm)

theorem firstIdx_lt_length (l : List Char) (c : Char) (i : Nat)
    (h : firstIdx? l c = some i) : i < l.length := by
  induction l generalizing i with
  | nil => simp [firstIdx?] at h
  | cons a as ih =>
    by_cases ha : a = c
    · simp only [firstIdx?, if_pos ha, Option.some.injEq] at h
      simp [← h]
    · simp only [firstIdx?, if_neg ha, Option.map_eq_some'] at h
      obtain ⟨j, hj, hij⟩ := h
      have := ih j hj
      simp only [List.length_cons]
      omega

theorem strRFind_of_lastIdx (l : List Char) (c : Char) (j : Nat)
    (h : lastIdx? l c = some j) : strRFind l c = (j : Int) := by
  simp only [lastIdx?, Option.map_eq_some'] at h
  obtain ⟨r, hr, hj⟩ := h
  have hs := strFind_of_firstIdx _ _ _ hr
  have hlt : r < l.length := by
    have := firstIdx_lt_length _ _ _ hr
    simpa using this
  simp only [strRFind, hs]
  rw [if_neg (by omega)]
  omega

theorem strRFind_neg_of_not_mem (l : List Char) (c : Char)
    (h : c ∉ l) : strRFind l c = -1 := by
  have : strFind l.reverse c = -1 :=
    (strFind_neg_iff _ _).mpr (by simpa using h)
  simp [strRFind, this]

theorem runDispatch_responses (cfg : TwilioConfig) (p : Provider)
    (calls : List FnCall) (h : (runDispatch cfg p calls).err = none) :
    (runDispatch cfg p calls).responses =
      calls.map (fun c => (c.name, (dispatchOne cfg p c).result)) := by
  induction calls with
  | nil => rfl
  | cons c cs ih =>
    by_cases hs : (dispatchOne cfg p c).err = none
    · simp only [runDispatch, hs] at h ⊢
      simp only [List.map_cons]
      exact congrArg _ (ih h)
    · obtain ⟨e, he⟩ := Option.ne_none_iff_exists'.mp hs
      simp [runDispatch, he] at h

/-- C1: when the parsed observation object has `subject_detected` absent
or `false`, the run stops right after the Observer stage: the Decision
model is never invoked and none of the four actions is executed, for
every temperature and whatever the other fields hold. -/
theorem c1_no_subject_halts (cfg : TwilioConfig) (p : Provider)
    (inp : RunInput) (t : Option String) (fields : List (String × JValue))
    (h1 : inp.obsResponse = .ok t)
    (h2 : json_loads (clean_json_text t) = .ok (.obj fields))
    (h3 : dictGet fields "subject_detected" = none ∨
      dictGet fields "subject_detected" = some (.bool false)) :
    runPipeline cfg p inp = ⟨none, false, true, [], none, none⟩ := by
  have ht : pyTruthy (dictGet fields "subject_detected") = false := by
    rcases h3 with h | h <;> rw [h] <;> rfl
  simp [runPipeline, h1, h2, ht]

theorem c1_no_subject_halts_wit :
    runPipeline cfgNone provOk
      ⟨40,
        .ok (some
          "\x7b\"subject_detected\": false, \"anxiety_level\": \"High\"\x7d"),
        .ok ⟨[⟨"make_emergency_call", [("message", .str "緊急")]⟩]⟩,
        .ok "r"⟩ =
      ⟨none, false, true, [], none, none⟩ :=
  c1_no_subject_halts cfgNone provOk _ _
    [("subject_detected", .bool false), ("anxiety_level", .str "High")]
    rfl rfl (Or.inr rfl)

/-- C2 counterexample: with the account SID and auth token present but
every phone number missing (an incomplete credential set), the SMS
action does not return the "not configured" outcome — the guard checks
only the SID and the token, so the provider call proceeds and its
failure is converted to a different error string. -/
theorem c2_missing_creds_cex :
    send_sms_alert cfgPartial provFail "テスト" ≠
      "エラー: Twilio が設定されていません。" := by decide

/-- C2 amended: the "not configured" guard covers only the messaging
account SID and the auth token.  When either of those is absent (or
empty), both messaging actions return the explicit "not configured"
outcome string, and dispatching either messaging action raises no
exception, so the run continues to its final report.  Missing sender or
recipient numbers are not guarded; the provider call proceeds and any
provider failure is caught and converted to an error-outcome string. -/
theorem c2_messaging_guard_amended (cfg : TwilioConfig) (p : Provider)
    (m : String)
    (h : optFalsy cfg.sid = true ∨ optFalsy cfg.token = true) :
    send_sms_alert cfg p m = "エラー: Twilio が設定されていません。" ∧
    make_emergency_call cfg p m = "エラー: Twilio が設定されていません。" ∧
    (∀ args, argGet args "message" = some (.str m) →
      (dispatchOne cfg p ⟨"send_sms_alert", args⟩).err = none ∧
      (dispatchOne cfg p ⟨"make_emergency_call", args⟩).err = none) := by
  have hg : (optFalsy cfg.sid || optFalsy cfg.token) = true := by
    rcases h with h | h <;> simp [h]
  refine ⟨by simp [send_sms_alert, hg], by simp [make_emergency_call, hg],
    fun args ha => ?_⟩
  constructor <;> simp [dispatchOne, ha]

theorem c2_messaging_guard_amended_wit :
    send_sms_alert cfgNone provFail "通知" =
      "エラー: Twilio が設定されていません。" ∧
    make_emergency_call cfgNone provFail "通知" =
      "エラー: Twilio が設定されていません。" ∧
    (∀ args, argGet args "message" = some (.str "通知") →
      (dispatchOne cfgNone provFail ⟨"send_sms_alert", args⟩).err = none ∧
      (dispatchOne cfgNone provFail
        ⟨"make_emergency_call", args⟩).err = none) :=
  c2_messaging_guard_amended cfgNone provFail "通知" (Or.inl rfl)

/-- C3 counterexample: a non-empty Observer reply that is still invalid
JSON after cleanup ("abc") does not fall back to an empty object and the
subject-undetected path — the run aborts with a surfaced Observer
error. -/
theorem c3_invalid_json_aborts_cex :
    (runPipeline cfgNone provOk
      ⟨40, .ok (some "abc"), .error "x", .error "x"⟩).stoppedNoSubject =
        false ∧
    (runPipeline cfgNone provOk
      ⟨40, .ok (some "abc"), .error "x", .error "x"⟩).surfacedError =
        some "Observer Error: Expecting value" := ⟨rfl, rfl⟩

/-- C3 amended: only an absent or empty Observer reply falls back to the
empty object, which makes the run treat the subject as undetected and
stop cleanly; non-empty reply text that is still invalid JSON after the
cleanup pass makes `json.loads` raise, and the run aborts with a
surfaced Observer error. -/
theorem c3_parse_fallback_amended (cfg : TwilioConfig) (p : Provider)
    (inp : RunInput) :
    ((inp.obsResponse = .ok none ∨ inp.obsResponse = .ok (some "")) →
      runPipeline cfg p inp = ⟨none, false, true, [], none, none⟩) ∧
    (∀ t e, inp.obsResponse = .ok t →
      json_loads (clean_json_text t) = .error e →
      runPipeline cfg p inp =
        ⟨some ("Observer Error: " ++ e), false, false, [], none, none⟩) := by
  constructor
  · intro h
    rcases h with h | h <;> simp [runPipeline, h] <;> rfl
  · intro t e h1 h2
    simp [runPipeline, h1, h2]

theorem c3_parse_fallback_amended_wit :
    runPipeline cfgNone provOk ⟨26, .ok none, .error "x", .error "x"⟩ =
      ⟨none, false, true, [], none, none⟩ ∧
    runPipeline cfgNone provOk
      ⟨26, .ok (some "\x7boops"), .error "x", .error "x"⟩ =
      ⟨some ("Observer Error: " ++
        "Expecting property name enclosed in double quotes"),
        false, false, [], none, none⟩ :=
  ⟨(c3_parse_fallback_amended cfgNone provOk _).1 (Or.inl rfl),
   (c3_parse_fallback_amended cfgNone provOk _).2 (some "\x7boops") _ rfl rfl⟩

/-- C4: a requested call whose name is not one of the four declared
action names is never dispatched to an execution function (no action
event is produced, no exception is raised) and its outcome stays the
string "Error". -/
theorem c4_unknown_action_guard (cfg : TwilioConfig) (p : Provider)
    (c : FnCall)
    (h1 : c.name ≠ "send_sms_alert") (h2 : c.name ≠ "make_emergency_call")
    (h3 : c.name ≠ "open_car_windows") (h4 : c.name ≠ "play_music") :
    dispatchOne cfg p c = ⟨"Error", [], none⟩ := by
  simp [dispatchOne, h1, h2, h3, h4]

theorem c4_unknown_action_guard_wit :
    dispatchOne cfgNone provOk ⟨"self_destruct", []⟩ =
      ⟨"Error", [], none⟩ :=
  c4_unknown_action_guard cfgNone provOk _
    (by decide) (by decide) (by decide) (by decide)

/-- C5 counterexample: an `open_car_windows` request with level 150 is
executed (the window action runs with 150, outside 0-100) — the
dispatcher performs no range validation before the call. -/
theorem c5_level_range_cex :
    ExecEvent.windows 150 ∈
      (dispatchOne cfgNone provOk
        ⟨"open_car_windows", [("level", .num 150)]⟩).events ∧
    ¬((0 : Int) ≤ 150 ∧ (150 : Int) ≤ 100) := by
  constructor
  · show ExecEvent.windows 150 ∈ [ExecEvent.windows 150]
    exact List.mem_singleton_self _
  · decide

/-- C5 amended: for every requested `open_car_windows` action whose
level argument is a number, the dispatcher coerces it with `int()` and
executes the window call unconditionally, returning its outcome string;
there is no 0-100 range validation before execution — a level outside
that range only raises afterwards, in the progress-bar rendering, which
aborts the rest of the loop. -/
theorem c5_window_dispatch_amended (cfg : TwilioConfig) (p : Provider)
    (args : List (String × JValue)) (n : Int)
    (h : argGet args "level" = some (.num n)) :
    dispatchOne cfg p ⟨"open_car_windows", args⟩ =
      ⟨open_car_windows n, [.windows n],
        if 0 ≤ n ∧ n ≤ 100 then none
        else some "StreamlitAPIException: Progress Value has invalid value"⟩
    := by
  simp [dispatchOne, h, pyInt]

theorem c5_window_dispatch_amended_wit :
    dispatchOne cfgNone provOk
      ⟨"open_car_windows", [("level", JValue.num 50)]⟩ =
      ⟨open_car_windows 50, [.windows 50], none⟩ := by
  rw [c5_window_dispatch_amended cfgNone provOk
    [("level", JValue.num 50)] 50 rfl]
  decide

/-- C6 counterexample: パグ is in the brachycephalic set (the flag is
"Yes"), yet the stricter temperature-threshold note is not produced for
it — `breed_note` is empty, so no stricter context reaches the Decision
stage. -/
theorem c6_pug_no_context_cex :
    is_brachy "パグ" = "Yes" ∧ breed_note "パグ" (9 / 2 : ℚ) = "" := by
  constructor
  · rfl
  · have h1 : strIn "フレンチブルドッグ" "パグ" = false := rfl
    have h2 : strIn "シニア犬" "パグ" = false := rfl
    have h3 : decide ((10 : ℚ) < 9 / 2) = false :=
      decide_eq_false (by norm_num)
    simp [breed_note, h1, h2, h3]

/-- C6 amended: the brachycephalic flag is set exactly when the breed is
in the fixed set {フレンチブルドッグ, パグ}, but the flag itself is unused:
the stricter temperature-threshold note (lower the threshold by 5°C) is
added to the context passed to the Decision stage only when the breed
string contains フレンチブルドッグ, so a パグ subject (not a senior) gets no
stricter-temperature context. -/
theorem c6_brachy_flag_amended :
    (∀ b : String,
      is_brachy b = "Yes" ↔ (b = "フレンチブルドッグ" ∨ b = "パグ")) ∧
    (∀ (b : String) (a : ℚ), strIn "フレンチブルドッグ" b = true →
      breed_note b a = frenchBulldogNote) ∧
    (∀ a : ℚ, a ≤ 10 → breed_note "パグ" a = "") := by
  refine ⟨fun b => ?_, fun b a h => by simp [breed_note, h], fun a ha => ?_⟩
  · by_cases h : b = "フレンチブルドッグ" ∨ b = "パグ"
    · simp [is_brachy, h]
    · simp only [is_brachy, if_neg h]
      constructor
      · intro hcon; exact absurd hcon (by decide)
      · intro hcon; exact absurd hcon h
  · have h1 : strIn "フレンチブルドッグ" "パグ" = false := rfl
    have h2 : strIn "シニア犬" "パグ" = false := rfl
    have h3 : decide ((10 : ℚ) < a) = false :=
      decide_eq_false (not_lt.mpr ha)
    simp [breed_note, h1, h2, h3]

theorem c6_brachy_flag_amended_wit :
    is_brachy "フレンチブルドッグ" = "Yes" ∧
    breed_note "フレンチブルドッグ" (9 / 2 : ℚ) = frenchBulldogNote ∧
    breed_note "パグ" (9 / 2 : ℚ) = "" :=
  ⟨(c6_brachy_flag_amended.1 "フレンチブルドッグ").mpr (Or.inl rfl),
   c6_brachy_flag_amended.2.1 _ _ (by decide),
   c6_brachy_flag_amended.2.2 _ (by norm_num)⟩

/-- C7: when the dispatch loop completes without an exception, the
message list sent to the second Decision-model turn holds exactly one
function response per requested call, in request order, whose result
field is verbatim the outcome string produced by dispatching that
call. -/
theorem c7_roundtrip_responses (cfg : TwilioConfig) (p : Provider)
    (inp : RunInput) (t : Option String) (fields : List (String × JValue))
    (d : DecisionResp)
    (h1 : inp.obsResponse = .ok t)
    (h2 : json_loads (clean_json_text t) = .ok (.obj fields))
    (h3 : pyTruthy (dictGet fields "subject_detected") = true)
    (h4 : inp.decResponse = .ok d)
    (h5 : d.function_calls ≠ [])
    (h6 : (runDispatch cfg p d.function_calls).err = none) :
    (runPipeline cfg p inp).sentResponses =
      some (d.function_calls.map
        (fun c => (c.name, (dispatchOne cfg p c).result))) := by
  rw [← runDispatch_responses cfg p d.function_calls h6]
  cases hfc : d.function_calls with
  | nil => exact absurd hfc h5
  | cons c cs =>
    rw [hfc] at h6
    simp only [runPipeline, h1, h2, h3, h4, hfc, if_pos, h6]
    cases hf : inp.finalResponse <;> simp [hf]

theorem c7_roundtrip_responses_wit :
    (runPipeline cfgFull provOk inpTwoCalls).sentResponses =
      some (([⟨"send_sms_alert", [("message", .str "不安の兆候があります")]⟩,
        ⟨"play_music", [("track_type", .str "relax")]⟩] : List FnCall).map
          (fun c => (c.name, (dispatchOne cfgFull provOk c).result))) :=
  c7_roundtrip_responses cfgFull provOk inpTwoCalls
    (some "\x7b\"subject_detected\": true, \"anxiety_level\": \"Low\"\x7d")
    [("subject_detected", .bool true), ("anxiety_level", .str "Low")]
    ⟨[⟨"send_sms_alert", [("message", .str "不安の兆候があります")]⟩,
      ⟨"play_music", [("track_type", .str "relax")]⟩]⟩
    rfl rfl rfl rfl (List.cons_ne_nil _ _) rfl

/-- C8: a raising Observer-stage model call aborts the run at once with
a surfaced Observer error and neither invokes the Decision model nor
executes any action; a raising first Decision-stage model call aborts
the run with a surfaced Agent error and executes no action. -/
theorem c8_model_error_aborts :
    (∀ (cfg : TwilioConfig) (p : Provider) (inp : RunInput) (e : String),
      inp.obsResponse = .error e →
      runPipeline cfg p inp =
        ⟨some ("Observer Error: " ++ e), false, false, [], none, none⟩) ∧
    (∀ (cfg : TwilioConfig) (p : Provider) (inp : RunInput) (e : String)
      (t : Option String) (fields : List (String × JValue)),
      inp.obsResponse = .ok t →
      json_loads (clean_json_text t) = .ok (.obj fields) →
      pyTruthy (dictGet fields "subject_detected") = true →
      inp.decResponse = .error e →
      runPipeline cfg p inp =
        ⟨some ("Agent Error: " ++ e), true, false, [], none, none⟩) := by
  constructor
  · intro cfg p inp e h
    simp [runPipeline, h]
  · intro cfg p inp e t fields h1 h2 h3 h4
    simp [runPipeline, h1, h2, h3, h4]

theorem c8_model_error_aborts_wit :
    runPipeline cfgFull provOk ⟨30, .error "deadline", .ok ⟨[]⟩, .ok "r"⟩ =
      ⟨some ("Observer Error: " ++ "deadline"), false, false, [],
        none, none⟩ ∧
    runPipeline cfgFull provOk
      ⟨30, .ok (some "\x7b\"subject_detected\": true\x7d"), .error "quota",
        .ok "r"⟩ =
      ⟨some ("Agent Error: " ++ "quota"), true, false, [], none, none⟩ :=
  ⟨c8_model_error_aborts.1 cfgFull provOk _ "deadline" rfl,
   c8_model_error_aborts.2 cfgFull provOk _ "quota"
     (some "\x7b\"subject_detected\": true\x7d")
     [("subject_detected", .bool true)] rfl rfl rfl rfl⟩

/-- C9 counterexample: on input "abc" the cleanup finds no
brace-delimited span and returns the stripped text unchanged — not the
empty object "{}" the claim promises. -/
theorem c9_no_brace_fallback_cex :
    clean_json_text (some "abc") = "abc" ∧ "abc" ≠ "{}" := by
  constructor
  · rfl
  · decide

/-- C9 amended: `clean_json_text` returns "{}" exactly for absent or
empty input; otherwise it strips the code-fence markers and, when the
stripped text contains both a "\x7b" and a "\x7d", returns exactly the
substring from the first "\x7b" through the last "\x7d"; when no such
span exists it returns the stripped text unchanged (not an empty
object). -/
theorem c9_clean_json_amended :
    clean_json_text none = "{}" ∧
    clean_json_text (some "") = "{}" ∧
    (∀ s : String, s.isEmpty = false →
      ('{' ∉ fenceCleaned s ∨ '}' ∉ fenceCleaned s) →
      clean_json_text (some s) = String.mk (fenceCleaned s)) ∧
    (∀ (s : String) (i j : Nat), s.isEmpty = false →
      firstIdx? (fenceCleaned s) '{' = some i →
      lastIdx? (fenceCleaned s) '}' = some j →
      clean_json_text (some s) =
        String.mk (((fenceCleaned s).drop i).take (j + 1 - i))) := by
  refine ⟨rfl, rfl, fun s hs h => ?_, fun s i j hs hi hj => ?_⟩
  · have hcond : ¬(strFind (fenceCleaned s) '{' ≠ -1 ∧
        strRFind (fenceCleaned s) '}' ≠ -1) := by
      rcases h with h | h
      · intro hcon; exact hcon.1 ((strFind_neg_iff _ _).mpr h)
      · intro hcon; exact hcon.2 (strRFind_neg_of_not_mem _ _ h)
    simp [clean_json_text, hs, hcond]
  · have hfi := strFind_of_firstIdx _ _ _ hi
    have hrj := strRFind_of_lastIdx _ _ _ hj
    have hcond : strFind (fenceCleaned s) '{' ≠ -1 ∧
        strRFind (fenceCleaned s) '}' ≠ -1 := by
      constructor <;> [rw [hfi]; rw [hrj]] <;> omega
    simp only [clean_json_text, hs, Bool.false_eq_true, if_false,
      if_pos hcond, hfi, hrj]
    have h1 : ((i : Int)).toNat = i := Int.toNat_natCast i
    have h2 : ((j : Int) + 1 - (i : Int)).toNat = j + 1 - i := by omega
    rw [h1, h2]
    exact if_pos ⟨by omega, by omega⟩

theorem c9_clean_json_amended_wit :
    clean_json_text (some "abcd") = String.mk (fenceCleaned "abcd") ∧
    clean_json_text (some "x\x7b\"a\": 1\x7dy") =
      String.mk (((fenceCleaned "x\x7b\"a\": 1\x7dy").drop 1).take (8 + 1 - 1)) :=
  ⟨c9_clean_json_amended.2.2.1 "abcd" rfl (Or.inl (by decide)),
   c9_clean_json_amended.2.2.2 "x\x7b\"a\": 1\x7dy" 1 8 rfl (by decide)
     (by decide)⟩

/-- C10: both messaging actions are total at their interface — for every
configuration, provider behaviour and message they return one of the
outcome strings: the "not configured" guard string, the success string,
or (when the provider call raises) an error-outcome string carrying the
provider's failure text. -/
theorem c10_messaging_total (cfg : TwilioConfig) (p : Provider)
    (m : String) :
    (send_sms_alert cfg p m = "エラー: Twilio が設定されていません。" ∨
     send_sms_alert cfg p m = "SMS を送信しました。" ∨
     ∃ e, p.createMessage m cfg.smsNumber cfg.ownerPhone = .error e ∧
       send_sms_alert cfg p m = "エラー: SMS 送信に失敗しました - " ++ e) ∧
    (make_emergency_call cfg p m = "エラー: Twilio が設定されていません。" ∨
     make_emergency_call cfg p m = "電話を発信しました。" ∨
     ∃ e, p.createCall (call_twiml m) cfg.ownerPhone cfg.fromPhone =
         .error e ∧
       make_emergency_call cfg p m =
         "エラー: 電話発信に失敗しました - " ++ e) := by
  constructor
  · by_cases hg : (optFalsy cfg.sid || optFalsy cfg.token) = true
    · exact Or.inl (by simp [send_sms_alert, hg])
    · cases hc : p.createMessage m cfg.smsNumber cfg.ownerPhone with
      | ok u => exact Or.inr (Or.inl (by simp [send_sms_alert, hg, hc]))
      | error e =>
        exact Or.inr (Or.inr ⟨e, rfl, by simp [send_sms_alert, hg, hc]⟩)
  · by_cases hg : (optFalsy cfg.sid || optFalsy cfg.token) = true
    · exact Or.inl (by simp [make_emergency_call, hg])
    · cases hc : p.createCall (call_twiml m) cfg.ownerPhone cfg.fromPhone
        with
      | ok u =>
        exact Or.inr (Or.inl (by simp [make_emergency_call, hg, hc]))
      | error e =>
        exact Or.inr (Or.inr ⟨e, rfl, by simp [make_emergency_call, hg, hc]⟩)

end PawGuardian
